import Mathlib

/-
Verification of fuzz/gosigfuzz/gosigfuzz.c: a fuzzing-harness helper that
re-registers a fixed list of OS signal handlers with the SA_ONSTACK flag
added, leaving the handler functions in place.

The process-wide signal disposition table is modelled as a function from
signal numbers to sigaction records.  The two sigaction system-call shapes
used by the code (query with act = NULL, install with oldact = NULL) are
modelled as pure table operations; the spec assumes the OS calls succeed
(section 7), and a separate outcome-indexed model covers the failure paths
for the error-handling claim.

Signal numbers and SA_ONSTACK carry their Linux x86-64 values.
-/

namespace Gosigfuzz

def SIGINT : Nat := 2
def SIGABRT : Nat := 6
def SIGBUS : Nat := 7
def SIGFPE : Nat := 8
def SIGUSR1 : Nat := 10
def SIGSEGV : Nat := 11
def SIGUSR2 : Nat := 12
def SIGALRM : Nat := 14
def SIGTERM : Nat := 15
def SIGXFSZ : Nat := 25

def SA_ONSTACK : Nat := 0x08000000

/-- One struct sigaction.  The handler pointers are modelled as opaque
numeric codes; on Linux sa_handler and sa_sigaction overlay the same union,
but the C code copies both fields, so the model keeps both.  sa_mask is a
signal-set bitmask; sigemptyset yields the mask 0. -/
structure Sigaction where
  sa_handler : Nat
  sa_sigaction : Nat
  sa_flags : Nat
  sa_mask : Nat
  deriving DecidableEq

/-- The process-wide signal disposition table kept by the OS. -/
def SigTable : Type := Nat → Sigaction

/-- sigemptyset(&set) leaves the empty signal mask. -/
def sigemptyset : Nat := 0

/-- sigaction(signum, NULL, &old): query the current action for signum. -/
def sigactionQuery (t : SigTable) (signum : Nat) : Sigaction :=
  t signum

/-- sigaction(signum, &act, NULL): install act as the action for signum. -/
def sigactionInstall (t : SigTable) (signum : Nat) (act : Sigaction) : SigTable :=
  fun s => if s = signum then act else t s

/-- fixSignalHandler (gosigfuzz.c lines 22-31): query the old action, build
a new action with an emptied mask, the old flags with SA_ONSTACK added and
the old handler fields, and install it. -/
def fixSignalHandler (signum : Nat) (t : SigTable) : SigTable :=
  let old_action := sigactionQuery t signum
  let new_action : Sigaction :=
    { sa_mask := sigemptyset
      sa_flags := old_action.sa_flags ||| SA_ONSTACK
      sa_sigaction := old_action.sa_sigaction
      sa_handler := old_action.sa_handler }
  sigactionInstall t signum new_action

/-- FixStackSignalHandler (gosigfuzz.c lines 33-44): the ten fixSignalHandler
calls in source order. -/
def FixStackSignalHandler (t : SigTable) : SigTable :=
  fixSignalHandler SIGUSR2
    (fixSignalHandler SIGUSR1
      (fixSignalHandler SIGXFSZ
        (fixSignalHandler SIGFPE
          (fixSignalHandler SIGBUS
            (fixSignalHandler SIGTERM
              (fixSignalHandler SIGINT
                (fixSignalHandler SIGALRM
                  (fixSignalHandler SIGABRT
                    (fixSignalHandler SIGSEGV t)))))))))

/-- The fixed signal list, in the order FixStackSignalHandler processes it. -/
def fixedSignals : List Nat :=
  [SIGSEGV, SIGABRT, SIGALRM, SIGINT, SIGTERM, SIGBUS, SIGFPE, SIGXFSZ, SIGUSR1, SIGUSR2]

/-- LLVMFuzzerInitialize (gosigfuzz.c lines 46-49): run FixStackSignalHandler
on the table and return 0.  argc and argv are received but unused. -/
def LLVMFuzzerInitialize (argc : Int) (argv : List (List Nat)) (t : SigTable) :
    Int × SigTable :=
  (0, FixStackSignalHandler t)

/-- Outcome of one fixSignalHandler invocation at the system-call level:
whether the query call succeeds, the contents old_action holds when it does
not (the C variable stays uninitialized, so any record may appear), and
whether the install call succeeds (a failed install leaves the table as it
was).  The C code discards both return codes. -/
structure FixOutcome where
  queryOk : Bool
  garbage : Sigaction
  installOk : Bool

/-- fixSignalHandler with explicit system-call outcomes. -/
def fixSignalHandlerO (o : FixOutcome) (signum : Nat) (t : SigTable) : SigTable :=
  let old_action := if o.queryOk then sigactionQuery t signum else o.garbage
  let new_action : Sigaction :=
    { sa_mask := sigemptyset
      sa_flags := old_action.sa_flags ||| SA_ONSTACK
      sa_sigaction := old_action.sa_sigaction
      sa_handler := old_action.sa_handler }
  if o.installOk then sigactionInstall t signum new_action else t

/-- FixStackSignalHandler with an outcome for each of the ten calls. -/
def FixStackSignalHandlerO (oc : Nat → FixOutcome) (t : SigTable) : SigTable :=
  fixSignalHandlerO (oc 9) SIGUSR2
    (fixSignalHandlerO (oc 8) SIGUSR1
      (fixSignalHandlerO (oc 7) SIGXFSZ
        (fixSignalHandlerO (oc 6) SIGFPE
          (fixSignalHandlerO (oc 5) SIGBUS
            (fixSignalHandlerO (oc 4) SIGTERM
              (fixSignalHandlerO (oc 3) SIGINT
                (fixSignalHandlerO (oc 2) SIGALRM
                  (fixSignalHandlerO (oc 1) SIGABRT
                    (fixSignalHandlerO (oc 0) SIGSEGV t)))))))))

/-- LLVMFuzzerInitialize over the outcome-indexed model: the return value 0
is produced whatever the ten call outcomes are. -/
def LLVMFuzzerInitializeO (oc : Nat → FixOutcome) (argc : Int)
    (argv : List (List Nat)) (t : SigTable) : Int × SigTable :=
  (0, FixStackSignalHandlerO oc t)

/-- Reference step of spec sections 4 and 8, followed word for word: read
the current handler configuration, add the alternate-stack flag to its
flags, and reinstall that configuration - everything not named by the spec,
the signal mask included, stays as read. -/
def specFixSignalHandler (signum : Nat) (t : SigTable) : SigTable :=
  sigactionInstall t signum
    { sigactionQuery t signum with
      sa_flags := (sigactionQuery t signum).sa_flags ||| SA_ONSTACK }

/-- The spec reference sequence over the whole fixed list, one reinstall
per signal. -/
def specFixStackSignalHandler (t : SigTable) : SigTable :=
  List.foldl (fun a s => specFixSignalHandler s a) t fixedSignals

/-- The reference step amended to what the code does: the new action keeps
the queried handler fields, gets the old flags with the alternate-stack flag
added, and gets the empty signal mask. -/
def amendedFixSignalHandler (signum : Nat) (t : SigTable) : SigTable :=
  sigactionInstall t signum
    { sa_handler := (sigactionQuery t signum).sa_handler
      sa_sigaction := (sigactionQuery t signum).sa_sigaction
      sa_flags := (sigactionQuery t signum).sa_flags ||| SA_ONSTACK
      sa_mask := sigemptyset }

/-- The amended reference sequence over the whole fixed list. -/
def amendedFixStackSignalHandler (t : SigTable) : SigTable :=
  List.foldl (fun a s => amendedFixSignalHandler s a) t fixedSignals

/-- A concrete initial table: every signal starts with distinct handler
codes, flags 0 and the nonempty mask 5. -/
def t0 : SigTable :=
  fun _ => { sa_handler := 1, sa_sigaction := 2, sa_flags := 0, sa_mask := 5 }

lemma fixSignalHandler_apply_self (signum : Nat) (t : SigTable) :
    fixSignalHandler signum t signum =
      { sa_handler := (t signum).sa_handler
        sa_sigaction := (t signum).sa_sigaction
        sa_flags := (t signum).sa_flags ||| SA_ONSTACK
        sa_mask := 0 } := by
  simp [fixSignalHandler, sigactionInstall, sigactionQuery, sigemptyset]

lemma fixSignalHandler_apply_ne (signum s : Nat) (t : SigTable) (h : s ≠ signum) :
    fixSignalHandler signum t s = t s := by
  simp [fixSignalHandler, sigactionInstall, sigactionQuery, h]

lemma FixStack_apply_mem (t : SigTable) (s : Nat) (h : s ∈ fixedSignals) :
    FixStackSignalHandler t s =
      { sa_handler := (t s).sa_handler
        sa_sigaction := (t s).sa_sigaction
        sa_flags := (t s).sa_flags ||| SA_ONSTACK
        sa_mask := 0 } := by
  simp [fixedSignals, SIGSEGV, SIGABRT, SIGALRM, SIGINT, SIGTERM, SIGBUS,
    SIGFPE, SIGXFSZ, SIGUSR1, SIGUSR2] at h
  rcases h with rfl | rfl | rfl | rfl | rfl | rfl | rfl | rfl | rfl | rfl <;>
    simp [FixStackSignalHandler, SIGSEGV, SIGABRT, SIGALRM, SIGINT, SIGTERM,
      SIGBUS, SIGFPE, SIGXFSZ, SIGUSR1, SIGUSR2,
      fixSignalHandler_apply_self, fixSignalHandler_apply_ne]

lemma FixStack_apply_not_mem (t : SigTable) (s : Nat) (h : s ∉ fixedSignals) :
    FixStackSignalHandler t s = t s := by
  simp [fixedSignals, SIGSEGV, SIGABRT, SIGALRM, SIGINT, SIGTERM, SIGBUS,
    SIGFPE, SIGXFSZ, SIGUSR1, SIGUSR2] at h
  obtain ⟨h1, h2, h3, h4, h5, h6, h7, h8, h9, h10⟩ := h
  simp [FixStackSignalHandler, SIGSEGV, SIGABRT, SIGALRM, SIGINT, SIGTERM,
    SIGBUS, SIGFPE, SIGXFSZ, SIGUSR1, SIGUSR2,
    fixSignalHandler_apply_ne, h1, h2, h3, h4, h5, h6, h7, h8, h9, h10]

lemma SA_ONSTACK_eq_pow : SA_ONSTACK = 2 ^ 27 := by
  decide

lemma fuzzer_init_snd (argc : Int) (argv : List (List Nat)) (t : SigTable) :
    ( LLVMFuzzerInitialize argc argv t).2 = FixStackSignalHandler t :=
  rfl

/-- Claim C1: after LLVMFuzzerInitialize completes, every signal in the
fixed set has the SA_ONSTACK flag (bit 27) set in its sa_flags, and every
other flag bit of sa_flags keeps the value it had before initialization. -/
theorem claim1_onstack_flag_set_others_preserved (argc : Int)
    (argv : List (List Nat)) (t : SigTable) (s i : Nat)
    (hs : s ∈ fixedSignals) (hi : i ≠ 27) :
    (( LLVMFuzzerInitialize argc argv t).2 s).sa_flags.testBit 27 = true ∧
    (( LLVMFuzzerInitialize argc argv t).2 s).sa_flags.testBit i =
      (t s).sa_flags.testBit i := by
  rw [fuzzer_init_snd, FixStack_apply_mem t s hs]
  have h27 : Nat.testBit SA_ONSTACK 27 = true := by
    rw [SA_ONSTACK_eq_pow]
    exact Nat.testBit_two_pow_self
  have hne : Nat.testBit SA_ONSTACK i = false := by
    rw [SA_ONSTACK_eq_pow]
    exact Nat.testBit_two_pow_of_ne (Ne.symm hi)
  constructor
  · simp [Nat.testBit_or, h27]
  · simp [Nat.testBit_or, hne]

/-- Witness for C1 at signal SIGSEGV, flag bit 0, table t0. -/
theorem claim1_witness :
    (SIGSEGV ∈ fixedSignals ∧ (0 : Nat) ≠ 27) ∧
    ((( LLVMFuzzerInitialize 0 [] t0).2 SIGSEGV).sa_flags.testBit 27 = true ∧
     (( LLVMFuzzerInitialize 0 [] t0).2 SIGSEGV).sa_flags.testBit 0 =
       (t0 SIGSEGV).sa_flags.testBit 0) :=
  ⟨⟨by decide, by decide⟩,
    claim1_onstack_flag_set_others_preserved 0 [] t0 SIGSEGV 0 (by decide) (by decide)⟩

/-- Claim C2: after LLVMFuzzerInitialize completes, every signal in the
fixed set keeps the sa_handler and sa_sigaction fields it had registered
before initialization. -/
theorem claim2_handler_fields_preserved (argc : Int) (argv : List (List Nat))
    (t : SigTable) (s : Nat) (hs : s ∈ fixedSignals) :
    (( LLVMFuzzerInitialize argc argv t).2 s).sa_handler = (t s).sa_handler ∧
    (( LLVMFuzzerInitialize argc argv t).2 s).sa_sigaction = (t s).sa_sigaction := by
  rw [fuzzer_init_snd, FixStack_apply_mem t s hs]
  exact ⟨rfl, rfl⟩

/-- Witness for C2 at signal SIGABRT, table t0. -/
theorem claim2_witness :
    SIGABRT ∈ fixedSignals ∧
    ((( LLVMFuzzerInitialize 0 [] t0).2 SIGABRT).sa_handler = (t0 SIGABRT).sa_handler ∧
     (( LLVMFuzzerInitialize 0 [] t0).2 SIGABRT).sa_sigaction =
       (t0 SIGABRT).sa_sigaction) :=
  ⟨by decide, claim2_handler_fields_preserved 0 [] t0 SIGABRT (by decide)⟩

/-- Claim C3 as stated fails: the spec reference sequence reinstalls the
queried configuration with only the flags changed, so it keeps the prior
signal mask, while the code installs an emptied mask (sigemptyset on
new_action.sa_mask).  At table t0, whose masks are nonempty, the entry the
code leaves for SIGSEGV differs from the entry the reference leaves. -/
theorem claim3_counterexample :
    ( LLVMFuzzerInitialize 0 [] t0).2 SIGSEGV ≠ specFixStackSignalHandler t0 SIGSEGV := by
  decide

/-- Claim C3 (amended): the effect of initialization equals the reference
read-modify-write sequence in which the new action keeps the queried
handler fields, has the old flags with the alternate-stack flag added, and
has the EMPTY signal mask; the sequence performs one reinstall per signal,
over a duplicate-free signal list. -/
theorem claim3_amended_refinement :
    (∀ t : SigTable, FixStackSignalHandler t = amendedFixStackSignalHandler t) ∧
    fixedSignals.Nodup :=
  ⟨fun _ => rfl, by decide⟩

/-- Claim C4: LLVMFuzzerInitialize returns 0 for every argc, argv and
table, and for every outcome of the underlying sigaction calls; the
all-success outcomes reproduce the plain model, so the discarded return
codes never influence the result. -/
theorem claim4_returns_zero :
    (∀ (oc : Nat → FixOutcome) (argc : Int) (argv : List (List Nat)) (t : SigTable),
      ( LLVMFuzzerInitializeO oc argc argv t).1 = 0) ∧
    (∀ (argc : Int) (argv : List (List Nat)) (t : SigTable),
      ( LLVMFuzzerInitialize argc argv t).1 = 0) ∧
    (∀ (g : Sigaction) (argc : Int) (argv : List (List Nat)) (t : SigTable),
      LLVMFuzzerInitializeO (fun _ => ⟨true, g, true⟩) argc argv t =
        LLVMFuzzerInitialize argc argv t) :=
  ⟨fun _ _ _ _ => rfl, fun _ _ _ => rfl, fun _ _ _ _ => rfl⟩

/-- Claim C5: a signal outside the fixed set keeps its whole table entry
(handler fields, flags and mask) across LLVMFuzzerInitialize. -/
theorem claim5_frame_other_signals (argc : Int) (argv : List (List Nat))
    (t : SigTable) (s : Nat) (hs : s ∉ fixedSignals) :
    ( LLVMFuzzerInitialize argc argv t).2 s = t s := by
  rw [fuzzer_init_snd]
  exact FixStack_apply_not_mem t s hs

/-- Witness for C5 at signal 3 (SIGQUIT, outside the fixed set), table t0. -/
theorem claim5_witness :
    (3 : Nat) ∉ fixedSignals ∧ ( LLVMFuzzerInitialize 0 [] t0).2 3 = t0 3 :=
  ⟨by decide, claim5_frame_other_signals 0 [] t0 3 (by decide)⟩

/-- Claim C6: the behaviour of LLVMFuzzerInitialize does not depend on its
arguments: on the same initial table, any two argc and argv pairs give the
same return value and the same resulting table. -/
theorem claim6_argument_independence (t : SigTable) (argc1 argc2 : Int)
    (argv1 argv2 : List (List Nat)) :
    LLVMFuzzerInitialize argc1 argv1 t = LLVMFuzzerInitialize argc2 argv2 t :=
  rfl

/-- Claim C7: after initialization, every signal in the fixed set has the
empty registered signal mask, whatever mask it had before. -/
theorem claim7_mask_emptied (argc : Int) (argv : List (List Nat))
    (t : SigTable) (s : Nat) (hs : s ∈ fixedSignals) :
    (( LLVMFuzzerInitialize argc argv t).2 s).sa_mask = 0 := by
  rw [fuzzer_init_snd, FixStack_apply_mem t s hs]

/-- Witness for C7 at signal SIGUSR2, table t0 (whose prior mask is 5). -/
theorem claim7_witness :
    SIGUSR2 ∈ fixedSignals ∧ (( LLVMFuzzerInitialize 0 [] t0).2 SIGUSR2).sa_mask = 0 :=
  ⟨by decide, claim7_mask_emptied 0 [] t0 SIGUSR2 (by decide)⟩

/-- Claim C8: FixStackSignalHandler is idempotent on every initial table. -/
theorem claim8_idempotent (t : SigTable) :
    FixStackSignalHandler (FixStackSignalHandler t) = FixStackSignalHandler t := by
  funext s
  by_cases hs : s ∈ fixedSignals
  · rw [FixStack_apply_mem _ s hs, FixStack_apply_mem t s hs]
    simp [Nat.or_assoc]
  · rw [FixStack_apply_not_mem _ s hs, FixStack_apply_not_mem t s hs]

/-- Claim C9: FixStackSignalHandler folds fixSignalHandler over exactly the
list SIGSEGV, SIGABRT, SIGALRM, SIGINT, SIGTERM, SIGBUS, SIGFPE, SIGXFSZ,
SIGUSR1, SIGUSR2; the list has no duplicate and has length ten, so each of
the ten signals is processed exactly once. -/
theorem claim9_fixed_signal_list :
    (∀ t : SigTable, FixStackSignalHandler t =
      List.foldl (fun a s => fixSignalHandler s a) t fixedSignals) ∧
    fixedSignals = [SIGSEGV, SIGABRT, SIGALRM, SIGINT, SIGTERM, SIGBUS,
      SIGFPE, SIGXFSZ, SIGUSR1, SIGUSR2] ∧
    fixedSignals.Nodup ∧ fixedSignals.length = 10 :=
  ⟨fun _ => rfl, rfl, by decide, rfl⟩

end Gosigfuzz
